import Mathlib

/-!
Verification of the data-cleaning core of `src/app.py` (class `DataCleaner`):
the profiler `analyze` (lines 61-104) and the repair pipeline `auto_fix`
(lines 106-156).

The pandas data model is shallowly embedded:

* a cell (`Val`) is missing (NaN/NaT), a text value, an integer, a float
  (modelled as `Rat`; no claim depends on binary floating-point rounding),
  or a timestamp (modelled as an integer code);
* a column (`Col`) carries its name, its pandas dtype and its cell list;
* a `DataFrame` is the ordered list of its columns; `len(df)` is the row
  count, i.e. the length of the first column (0 for an empty frame).

Per-cell coercions `pd.to_numeric(-, errors='coerce')` and
`pd.to_datetime(-, errors='coerce')` are embedded as total functions
returning `Option Val` (`none` = coercion failure, which pandas represents
as NaN/NaT).  The string parsers cover the plain decimal and ISO-date
fragments; no claim depends on more exotic input formats.
-/

namespace DataCleaner

/-- Cell values of a pandas frame: NaN/None/NaT are all `missing`. -/
inductive Val where
  | missing : Val
  | str : String → Val
  | int : Int → Val
  | float : Rat → Val
  | timestamp : Int → Val
deriving DecidableEq

/-- The pandas column dtypes the program inspects
(`object`, `int64`, `float64`, `datetime64`). -/
inductive Dtype where
  | object : Dtype
  | int64 : Dtype
  | float64 : Dtype
  | datetime64 : Dtype
deriving DecidableEq

/-- One named, dtyped column. -/
structure Col where
  name : String
  dtype : Dtype
  vals : List Val
deriving DecidableEq

/-- A frame is its ordered list of columns. -/
structure DataFrame where
  cols : List Col
deriving DecidableEq

/-- `len(df)`: the row count (length of the first column, 0 if no columns). -/
def DataFrame.nRows (df : DataFrame) : Nat :=
  match df.cols with
  | [] => 0
  | c :: _ => c.vals.length

/-- Row `i` of the frame, one cell per column (in column order). -/
def DataFrame.rowAt (df : DataFrame) (i : Nat) : List Val :=
  df.cols.map (fun c => c.vals.getD i Val.missing)

/-- All rows of the frame, in order. -/
def DataFrame.rowsList (df : DataFrame) : List (List Val) :=
  (List.range df.nRows).map df.rowAt

/-- Strip leading and trailing whitespace from a character list (the
character-level semantics of Python `str.strip()`; implemented structurally
so that concrete runs reduce inside the kernel). -/
def stripChars (cs : List Char) : List Char :=
  ((cs.dropWhile Char.isWhitespace).reverse.dropWhile Char.isWhitespace).reverse

/-- `str.strip()` on a string value. -/
def stripStr (s : String) : String :=
  String.mk (stripChars s.data)

/-- Digits of a positive natural, most significant first; the first argument
is structural fuel (`n` itself always suffices since `n / 10 < n`). -/
def natToCharsAux : Nat → Nat → List Char
  | 0, _ => []
  | fuel + 1, n =>
    if n = 0 then []
    else natToCharsAux fuel (n / 10) ++ [Char.ofNat (48 + n % 10)]

/-- Decimal rendering of a natural number (the `str(n)` used in the
program's log and report messages). -/
def natToStr (n : Nat) : String :=
  if n = 0 then "0" else String.mk (natToCharsAux n n)

/-- Decimal rendering of an integer. -/
def intToStr (i : Int) : String :=
  if i < 0 then "-" ++ natToStr i.natAbs else natToStr i.natAbs

/-- Python `str(cell)` as applied by `astype(str)`: NaN renders as the text
"nan".  The renderings of numbers and timestamps are stand-ins; no claim
depends on their exact spelling (none produces edge whitespace, as in
pandas). -/
def astypeStr : Val → String
  | Val.missing => "nan"
  | Val.str s => s
  | Val.int n => intToStr n
  | Val.float q => if q.den = 1 then intToStr q.num ++ ".0"
                   else intToStr q.num ++ "/" ++ natToStr q.den
  | Val.timestamp t => "1970-epoch-" ++ intToStr t

/-- The regex `^\s|\s$` of lines 84/118: the string starts or ends with a
whitespace character. -/
def hasWS (s : String) : Bool :=
  match s.data with
  | [] => false
  | c :: cs => c.isWhitespace || (cs.getLastD c).isWhitespace

/-- Character-list prefix test. -/
def startsWithChars : List Char → List Char → Bool
  | _, [] => true
  | [], _ :: _ => false
  | c :: cs, p :: ps => c = p && startsWithChars cs ps

/-- Character-list substring test (Python `pat in s`). -/
def containsChars : List Char → List Char → Bool
  | [], p => p.isEmpty
  | _ :: _, [] => true
  | c :: cs, p :: ps => startsWithChars (c :: cs) (p :: ps) || containsChars cs (p :: ps)

/-- ASCII lower-casing of one character (`str.lower()` on the ASCII column
names this program deals in). -/
def lowerChar (c : Char) : Char :=
  if c.isUpper then Char.ofNat (c.toNat + 32) else c

/-- Line 89/134: the column-name heuristic
`'date' in col.lower() or 'time' in col.lower()`. -/
def isDateNamed (name : String) : Bool :=
  containsChars (name.data.map lowerChar) "date".data
  || containsChars (name.data.map lowerChar) "time".data

/-- Value of a decimal digit character. -/
def digitVal (c : Char) : Nat := c.toNat - 48

/-- Parse an all-digit, nonempty character list as a natural number. -/
def charsToNat? (cs : List Char) : Option Nat :=
  if ¬cs = [] ∧ cs.all Char.isDigit then
    some (cs.foldl (fun a c => a * 10 + digitVal c) 0)
  else none

/-- Split a character list at every occurrence of a separator character. -/
def splitOnChar (sep : Char) : List Char → List (List Char)
  | [] => [[]]
  | c :: cs =>
    let r := splitOnChar sep cs
    if c = sep then [] :: r
    else
      match r with
      | [] => [[c]]
      | h :: t => (c :: h) :: t

/-- Numeric parse of a text cell, as accepted by `pd.to_numeric`: optional
surrounding whitespace and sign, then either a plain integer or a decimal
with one point.  Everything else fails (scientific notation is out of the
modelled fragment; the strings "nan"/"inf" also fail here, which is
observationally the same as pandas mapping them to NaN/untestable values
for every use in this program). -/
def parseNumString (s : String) : Option Val :=
  let t := stripChars s.data
  let neg : Bool := decide (t.headD ' ' = '-')
  let u : List Char := if t.headD ' ' = '-' ∨ t.headD ' ' = '+' then t.drop 1 else t
  match splitOnChar '.' u with
  | [a] =>
    match charsToNat? a with
    | some k => some (Val.int (if neg then -(k : Int) else (k : Int)))
    | none => none
  | [a, b] =>
    if a.all Char.isDigit ∧ b.all Char.isDigit ∧ ¬(a = [] ∧ b = []) then
      let k : Nat := (a ++ b).foldl (fun acc c => acc * 10 + digitVal c) 0
      let q : Rat := (k : Rat) / ((10 : Rat) ^ b.length)
      some (Val.float (if neg then -q else q))
    else none
  | _ => none

/-- `pd.to_numeric(cell, errors='coerce')`: `none` is the coerced NaN.
Numbers pass through; missing stays NaN; a `Timestamp` object inside an
object column is not numeric-coercible. -/
def toNumericCell : Val → Option Val
  | Val.missing => none
  | Val.int n => some (Val.int n)
  | Val.float q => some (Val.float q)
  | Val.timestamp _ => none
  | Val.str s => parseNumString s

/-- Date parse of a text cell: the ISO `YYYY-MM-DD` fragment of
`pd.to_datetime`, encoded as the integer `y*10000 + m*100 + d`.  No claim
depends on the encoding of a successfully parsed date. -/
def parseDateString (s : String) : Option Int :=
  match splitOnChar '-' (stripChars s.data) with
  | [y, m, d] =>
    match charsToNat? y, charsToNat? m, charsToNat? d with
    | some yv, some mv, some dv =>
      if y.length = 4 ∧ 1 ≤ mv ∧ mv ≤ 12 ∧ 1 ≤ dv ∧ dv ≤ 31 then
        some ((yv : Int) * 10000 + (mv : Int) * 100 + (dv : Int))
      else none
    | _, _, _ => none
  | _ => none

/-- `pd.to_datetime(cell, errors='coerce')`: `none` is the coerced NaT.
Missing stays NaT (a success), numbers convert as epoch offsets,
timestamps pass through, strings go through the date parse. -/
def toDatetimeCell : Val → Option Val
  | Val.missing => some Val.missing
  | Val.timestamp t => some (Val.timestamp t)
  | Val.int n => some (Val.timestamp n)
  | Val.float q => some (Val.timestamp q.floor)
  | Val.str s => (parseDateString s).map Val.timestamp

/-- `df.duplicated().sum()` (lines 65/111): the number of rows equal to an
earlier row, accumulating the rows already seen. -/
def dupCountAux (seen : List (List Val)) : List (List Val) → Nat
  | [] => 0
  | r :: rs => (if r ∈ seen then 1 else 0) + dupCountAux (r :: seen) rs

/-- `df.duplicated().sum()` over the frame's rows. -/
def duplicatedSum (df : DataFrame) : Nat :=
  dupCountAux [] df.rowsList

/-- The rows `drop_duplicates` keeps: the first occurrence of each distinct
row, in original order. -/
def keepFirsts (seen : List (List Val)) : List (List Val) → List (List Val)
  | [] => []
  | r :: rs => if r ∈ seen then keepFirsts (r :: seen) rs
               else r :: keepFirsts (r :: seen) rs

/-- Rebuild the columns of a frame from a kept row list, column `j` taking
the `j`-th cell of every kept row. -/
def rebuildCols (rs : List (List Val)) : Nat → List Col → List Col
  | _, [] => []
  | j, c :: cs =>
      { c with vals := rs.map (fun r => r.getD j Val.missing) } :: rebuildCols rs (j + 1) cs

/-- `df.drop_duplicates()` (line 113): keep first occurrences, preserving
column names and dtypes. -/
def dropDuplicates (df : DataFrame) : DataFrame :=
  DataFrame.mk (rebuildCols (keepFirsts [] df.rowsList) 0 df.cols)

/-- `df.isnull().sum().sum()` (lines 64/142): total missing-cell count. -/
def emptyCellCount (df : DataFrame) : Nat :=
  (df.cols.map (fun c => c.vals.countP (fun v => decide (v = Val.missing)))).sum

/-- `type(x).__name__` of a non-missing object-column cell (line 78). -/
def typeName : Val → String
  | Val.missing => "float"
  | Val.str _ => "str"
  | Val.int _ => "int"
  | Val.float _ => "float"
  | Val.timestamp _ => "Timestamp"

/-- Profiler rule: mixed runtime types in an object column (lines 74-80). -/
def mixedTypeIssues (c : Col) : List String :=
  if c.dtype = Dtype.object then
    let nonNull := c.vals.filter (fun v => decide (¬v = Val.missing))
    let kinds := (nonNull.map typeName).eraseDups
    if 0 < nonNull.length ∧ 1 < kinds.length then
      ["Mixed types: " ++ String.intercalate ", " kinds]
    else []
  else []

/-- Count of cells whose `astype(str)` form has edge whitespace (line 84). -/
def wsCount (c : Col) : Nat :=
  c.vals.countP (fun v => hasWS (astypeStr v))

/-- Profiler rule: extra-space report for an object column (lines 82-86). -/
def spacesIssues (c : Col) : List String :=
  if c.dtype = Dtype.object ∧ 0 < wsCount c then
    [natToStr (wsCount c) ++ " values with extra spaces"]
  else []

/-- Profiler rule: date-named column whose values do not all parse
(lines 88-93; `pd.to_datetime` without `errors='coerce'` raises as soon as
one cell fails). -/
def dateIssues (c : Col) : List String :=
  if isDateNamed c.name = true ∧ c.vals.all (fun v => (toDatetimeCell v).isSome) = false then
    ["Inconsistent date format"]
  else []

/-- `pd.to_numeric(col, errors='coerce').notna().sum()` (lines 97/125-126). -/
def numericCount (vals : List Val) : Nat :=
  vals.countP (fun v => (toNumericCell v).isSome)

/-- The threshold test of line 98: `numeric_count > len(self.df) * 0.5`.
For an integer row count the IEEE product `n * 0.5` is exact, so the strict
float comparison coincides with the exact integer comparison `n < 2 * count`
used here; `half_lt_iff` certifies the equivalence with the rational form
`n * (1/2) < count`. -/
def analyzeNumericCond (n : Nat) (vals : List Val) : Bool :=
  decide (n < 2 * numericCount vals)

/-- Profiler rule: numeric values stored as text (lines 95-99). -/
def rule6Issues (n : Nat) (c : Col) : List String :=
  if c.dtype = Dtype.object ∧ analyzeNumericCond n c.vals = true then
    ["Numeric values stored as text (" ++ natToStr (numericCount c.vals) ++ " detected)"]
  else []

/-- Issues of one column, in the order the code appends them (lines 71-102). -/
def colIssues (n : Nat) (c : Col) : List String :=
  mixedTypeIssues c ++ spacesIssues c ++ dateIssues c ++ rule6Issues n c

/-- The report built by `analyze` (lines 63-69). -/
structure IssueReport where
  empty_cells : Nat
  duplicate_rows : Nat
  total_rows : Nat
  total_columns : Nat
  column_issues : List (String × List String)
deriving DecidableEq

/-- `DataCleaner.analyze` (lines 61-104). -/
def analyze (df : DataFrame) : IssueReport :=
  { empty_cells := emptyCellCount df
  , duplicate_rows := duplicatedSum df
  , total_rows := df.nRows
  , total_columns := df.cols.length
  , column_issues := df.cols.filterMap (fun c =>
      let issues := colIssues df.nRows c
      if issues = [] then none else some (c.name, issues)) }

/-- Stage 2 on one column (lines 117-120): if the column is object-typed and
any cell's `astype(str)` form has edge whitespace, replace EVERY cell by the
stripped string form (this is `astype(str).str.strip()`, so missing cells
become the text "nan" and numbers become text); otherwise leave the column
alone.  Returns the column and the optional log entry. -/
def trimCol (c : Col) : Col × Option String :=
  if c.dtype = Dtype.object ∧ c.vals.any (fun v => hasWS (astypeStr v)) = true then
    ({ c with vals := c.vals.map (fun v => Val.str (stripStr (astypeStr v))) },
     some ("Trimmed spaces in column: " ++ c.name))
  else (c, none)

/-- Stage 2 over the frame, logging one entry per affected column. -/
def trimStage (df : DataFrame) : DataFrame × List String :=
  (DataFrame.mk (df.cols.map (fun c => (trimCol c).1)),
   df.cols.filterMap (fun c => (trimCol c).2))

/-- The threshold test of line 126: `converted.notna().sum() > len(self.df) * 0.5`
(the same expression as the profiler's rule-6 test, evaluated at the
stage-3 row count; see `analyzeNumericCond` for the exactness of the
integer form). -/
def fixNumericCond (n : Nat) (vals : List Val) : Bool :=
  decide (n < 2 * numericCount vals)

/-- The dtype and values `pd.to_numeric` produces for a committed column:
all-integer parses give an `int64` column, otherwise everything upcasts to
`float64` with failures as NaN. -/
def numericConvertVals (vals : List Val) : Dtype × List Val :=
  let parsed := vals.map toNumericCell
  if parsed.all (fun o => match o with | some (Val.int _) => true | _ => false) then
    (Dtype.int64, parsed.map (fun o => o.getD Val.missing))
  else
    (Dtype.float64, parsed.map (fun o =>
      match o with
      | some (Val.int n) => Val.float (n : Rat)
      | some v => v
      | none => Val.missing))

/-- Stage 3 on one column (lines 123-130): commit the numeric conversion of
an object column when the parse-success count clears the 50% threshold. -/
def numericConvertCol (n : Nat) (c : Col) : Col × Option String :=
  if c.dtype = Dtype.object ∧ fixNumericCond n c.vals = true then
    ({ c with dtype := (numericConvertVals c.vals).1, vals := (numericConvertVals c.vals).2 },
     some ("Converted " ++ c.name ++ " to numeric"))
  else (c, none)

/-- Stage 3 over the frame (`len(self.df)` is the post-dedup row count). -/
def numericStage (df : DataFrame) : DataFrame × List String :=
  (DataFrame.mk (df.cols.map (fun c => (numericConvertCol df.nRows c).1)),
   df.cols.filterMap (fun c => (numericConvertCol df.nRows c).2))

/-- Stage 4 on one column (lines 133-139): every date/time-named column is
coerced cell-wise, failures becoming NaT, and logged unconditionally. -/
def dateCol (c : Col) : Col × Option String :=
  if isDateNamed c.name = true then
    ({ c with dtype := Dtype.datetime64
              vals := c.vals.map (fun v => (toDatetimeCell v).getD Val.missing) },
     some ("Standardized dates in " ++ c.name))
  else (c, none)

/-- Stage 4 over the frame. -/
def dateStage (df : DataFrame) : DataFrame × List String :=
  (DataFrame.mk (df.cols.map (fun c => (dateCol c).1)),
   df.cols.filterMap (fun c => (dateCol c).2))

/-- Numeric value of a cell, for the median (pandas `median()` skips NaN). -/
def ratOf : Val → Option Rat
  | Val.int n => some (n : Rat)
  | Val.float q => some q
  | _ => none

/-- Insertion into a sorted rational list. -/
def insertRat (x : Rat) : List Rat → List Rat
  | [] => [x]
  | y :: ys => if x ≤ y then x :: y :: ys else y :: insertRat x ys

/-- Insertion sort for the median computation. -/
def sortRats : List Rat → List Rat
  | [] => []
  | x :: xs => insertRat x (sortRats xs)

/-- `col.median()` (line 145): `none` is the NaN median of an all-missing
column (and `fillna(NaN)` is then a no-op). -/
def medianOf (vals : List Val) : Option Rat :=
  let xs := sortRats (vals.filterMap ratOf)
  if xs.length = 0 then none
  else if xs.length % 2 = 1 then some (xs.getD (xs.length / 2) 0)
  else some ((xs.getD (xs.length / 2 - 1) 0 + xs.getD (xs.length / 2) 0) / 2)

/-- Stage 5 on one column (lines 143-147): numeric dtypes fill missing cells
with the column median (a no-op when the median is NaN), all other dtypes
fill missing cells with the text "Unknown". -/
def fillCol (c : Col) : Col :=
  if c.dtype = Dtype.int64 ∨ c.dtype = Dtype.float64 then
    match medianOf c.vals with
    | none => c
    | some m => { c with vals := c.vals.map (fun v => if v = Val.missing then Val.float m else v) }
  else
    { c with vals := c.vals.map (fun v => if v = Val.missing then Val.str "Unknown" else v) }

/-- Stage 5 over the frame (lines 141-150): `empty_before` is counted before
filling and logged as a single aggregate entry when positive. -/
def fillStage (df : DataFrame) : DataFrame × List String :=
  (DataFrame.mk (df.cols.map fillCol),
   if 0 < emptyCellCount df then
     ["Filled " ++ natToStr (emptyCellCount df) ++ " empty cells"]
   else [])

/-- Stage 1 (lines 110-114): drop duplicate rows and log the count if any. -/
def dedupStage (df : DataFrame) : DataFrame × List String :=
  if 0 < duplicatedSum df then
    (dropDuplicates df,
     ["Removed " ++ natToStr (duplicatedSum df) ++ " duplicate rows"])
  else (df, [])

/-- The dictionary returned by `auto_fix` (lines 152-156). -/
structure RepairResult where
  rows_before : Nat
  rows_after : Nat
  changes : List String
deriving DecidableEq

/-- `DataCleaner.auto_fix` (lines 106-156): the five stages in order, the
change log concatenated stage by stage, `rows_before` captured before
stage 1 and `rows_after` read off the final frame. -/
def auto_fix (df : DataFrame) : DataFrame × RepairResult :=
  let p1 := dedupStage df
  let p2 := trimStage p1.1
  let p3 := numericStage p2.1
  let p4 := dateStage p3.1
  let p5 := fillStage p4.1
  (p5.1,
   { rows_before := df.nRows
   , rows_after := p5.1.nRows
   , changes := p1.2 ++ p2.2 ++ p3.2 ++ p4.2 ++ p5.2 })

/-- The caller's original frame object after `auto_fix` returns, under
Python reference semantics: `__init__` (line 57) stores the caller's frame
without copying; line 113 rebinds `self.df` to the fresh frame returned by
`drop_duplicates` only when duplicates were found, while stages 2-5 assign
columns in place on whatever frame `self.df` refers to.  So with duplicates
the caller's object keeps its original cells, and without duplicates it is
mutated into the cleaned output. -/
def callerDfAfterAutoFix (df : DataFrame) : DataFrame :=
  if 0 < duplicatedSum df then df else (auto_fix df).1

/-! ### Helper lemmas about the embedding -/

theorem getD_map_of_lt {α β : Type} (f : α → β) (l : List α) (i : Nat)
    (hi : i < l.length) (d : β) (e : α) :
    (l.map f).getD i d = f (l.getD i e) := by
  induction l generalizing i with
  | nil => simp at hi
  | cons x xs ih =>
    cases i with
    | zero => rfl
    | succ k =>
      simp only [List.map_cons, List.getD_cons_succ]
      exact ih k (by simp at hi; omega)

theorem getD_map_of_get {α β : Type} (f : α → β) (l : List α) (i : Nat) (r : α)
    (h : l.get? i = some r) (d : β) :
    (l.map f).getD i d = f r := by
  rw [List.getD_eq_getD_get?, List.get?_map, h]
  rfl

theorem range_map_getD {α : Type} (d : α) :
    ∀ (r : List α), (List.range r.length).map (fun k => r.getD k d) = r
  | [] => rfl
  | x :: xs => by
    rw [List.length_cons, List.range_succ_eq_map, List.map_cons, List.map_map]
    have hfun : ((fun k => (x :: xs).getD k d) ∘ Nat.succ) = (fun k => xs.getD k d) := by
      funext k
      simp [Function.comp, List.getD_cons_succ]
    rw [List.getD_cons_zero, hfun, range_map_getD d xs]

theorem keepFirsts_length_add :
    ∀ (l seen : List (List Val)),
      (keepFirsts seen l).length + dupCountAux seen l = l.length
  | [], _ => rfl
  | r :: rs, seen => by
    by_cases h : r ∈ seen
    · simp only [keepFirsts, dupCountAux, if_pos h, List.length_cons]
      have := keepFirsts_length_add rs (r :: seen)
      omega
    · simp only [keepFirsts, dupCountAux, if_neg h, List.length_cons]
      have := keepFirsts_length_add rs (r :: seen)
      omega

theorem dupCountAux_le_length (l seen : List (List Val)) :
    dupCountAux seen l ≤ l.length := by
  have := keepFirsts_length_add l seen
  omega

theorem mem_of_mem_keepFirsts {x : List Val} :
    ∀ (l seen : List (List Val)), x ∈ keepFirsts seen l → x ∈ l
  | r :: rs, seen, hx => by
    by_cases h : r ∈ seen
    · rw [keepFirsts, if_pos h] at hx
      exact List.mem_cons_of_mem r (mem_of_mem_keepFirsts rs (r :: seen) hx)
    · rw [keepFirsts, if_neg h] at hx
      rcases List.mem_cons.mp hx with h1 | h2
      · exact h1 ▸ List.mem_cons_self r rs
      · exact List.mem_cons_of_mem r (mem_of_mem_keepFirsts rs (r :: seen) h2)

theorem not_mem_seen_of_mem_keepFirsts {x : List Val} :
    ∀ (l seen : List (List Val)), x ∈ keepFirsts seen l → x ∉ seen
  | r :: rs, seen, hx => by
    by_cases h : r ∈ seen
    · rw [keepFirsts, if_pos h] at hx
      intro hs
      exact (not_mem_seen_of_mem_keepFirsts rs (r :: seen) hx) (List.mem_cons_of_mem r hs)
    · rw [keepFirsts, if_neg h] at hx
      rcases List.mem_cons.mp hx with h1 | h2
      · exact h1 ▸ h
      · intro hs
        exact (not_mem_seen_of_mem_keepFirsts rs (r :: seen) h2) (List.mem_cons_of_mem r hs)

theorem nodup_keepFirsts : ∀ (l seen : List (List Val)), (keepFirsts seen l).Nodup
  | [], _ => List.nodup_nil
  | r :: rs, seen => by
    by_cases h : r ∈ seen
    · rw [keepFirsts, if_pos h]
      exact nodup_keepFirsts rs (r :: seen)
    · rw [keepFirsts, if_neg h]
      refine List.nodup_cons.mpr ⟨?_, nodup_keepFirsts rs (r :: seen)⟩
      intro hmem
      exact (not_mem_seen_of_mem_keepFirsts rs (r :: seen) hmem) (List.mem_cons_self r seen)

theorem dupCountAux_eq_zero :
    ∀ (l seen : List (List Val)), l.Nodup → (∀ x ∈ l, x ∉ seen) →
      dupCountAux seen l = 0
  | [], _, _, _ => rfl
  | r :: rs, seen, hnd, hdisj => by
    have hr : r ∉ seen := hdisj r (List.mem_cons_self r rs)
    rw [dupCountAux, if_neg hr]
    have hnd2 := List.nodup_cons.mp hnd
    have : dupCountAux (r :: seen) rs = 0 := by
      refine dupCountAux_eq_zero rs (r :: seen) hnd2.2 ?_
      intro x hx
      intro hmem
      rcases List.mem_cons.mp hmem with h1 | h2
      · exact hnd2.1 (h1 ▸ hx)
      · exact hdisj x (List.mem_cons_of_mem r hx) h2
    omega

theorem dupCountAux_keepFirsts (l : List (List Val)) :
    dupCountAux [] (keepFirsts [] l) = 0 :=
  dupCountAux_eq_zero _ _ (nodup_keepFirsts l [])
    (fun _ _ hx => (List.not_mem_nil _) hx)

theorem rowsList_length (df : DataFrame) : df.rowsList.length = df.nRows := by
  simp [DataFrame.rowsList]

theorem length_of_mem_rowsList {df : DataFrame} {r : List Val}
    (h : r ∈ df.rowsList) : r.length = df.cols.length := by
  simp only [DataFrame.rowsList, List.mem_map] at h
  obtain ⟨i, -, rfl⟩ := h
  simp [DataFrame.rowAt]

theorem rebuildCols_length (rs : List (List Val)) :
    ∀ (cs : List Col) (j : Nat), (rebuildCols rs j cs).length = cs.length
  | [], _ => rfl
  | _ :: cs, j => by
    rw [rebuildCols, List.length_cons, List.length_cons,
      rebuildCols_length rs cs (j + 1)]

theorem rebuild_map_getD (rs : List (List Val)) (i : Nat) (r : List Val)
    (h : rs.get? i = some r) :
    ∀ (cs : List Col) (j : Nat),
      (rebuildCols rs j cs).map (fun c => c.vals.getD i Val.missing)
        = (List.range cs.length).map (fun k => r.getD (j + k) Val.missing)
  | [], _ => rfl
  | c :: cs, j => by
    rw [rebuildCols, List.map_cons, List.length_cons, List.range_succ_eq_map,
      List.map_cons, List.map_map]
    have hhead : (rs.map (fun r2 => r2.getD j Val.missing)).getD i Val.missing
        = r.getD (j + 0) Val.missing := by
      rw [getD_map_of_get _ _ _ _ h, Nat.add_zero]
    have htail : ((fun k => r.getD (j + k) Val.missing) ∘ Nat.succ)
        = (fun k => r.getD (j + 1 + k) Val.missing) := by
      funext k
      have hidx : j + Nat.succ k = j + 1 + k := by omega
      simp only [Function.comp_apply]
      rw [hidx]
    rw [htail, ← rebuild_map_getD rs i r h cs (j + 1)]
    exact congrArg (· :: (rebuildCols rs (j + 1) cs).map
      (fun c2 => c2.vals.getD i Val.missing)) hhead

theorem rowsList_dropDuplicates (df : DataFrame) :
    (dropDuplicates df).rowsList = keepFirsts [] df.rowsList := by
  cases hc : df.cols with
  | nil =>
    have h0 : df.nRows = 0 := by simp [DataFrame.nRows, hc]
    have hrs : df.rowsList = [] := by simp [DataFrame.rowsList, h0]
    simp [dropDuplicates, hrs, hc, keepFirsts, DataFrame.rowsList,
      DataFrame.nRows, rebuildCols]
  | cons c cs =>
    have hn : (dropDuplicates df).nRows = (keepFirsts [] df.rowsList).length := by
      simp [dropDuplicates, hc, rebuildCols, DataFrame.nRows]
    refine List.ext_getElem ?_ ?_
    · simp [DataFrame.rowsList, hn]
    · intro i h1 h2
      have hi : i < (keepFirsts [] df.rowsList).length := by
        simpa using h2
      have hmem : (keepFirsts [] df.rowsList)[i] ∈ keepFirsts [] df.rowsList :=
        List.getElem_mem hi
      have hget : (keepFirsts [] df.rowsList).get? i
          = some ((keepFirsts [] df.rowsList)[i]) := by
        rw [List.get?_eq_getElem?]
        exact List.getElem?_eq_getElem hi
      have hrlen : ((keepFirsts [] df.rowsList)[i]).length = df.cols.length :=
        length_of_mem_rowsList (mem_of_mem_keepFirsts _ _ hmem)
      have hlhs : (dropDuplicates df).rowsList[i] = (dropDuplicates df).rowAt i := by
        simp [DataFrame.rowsList]
      rw [hlhs]
      show (dropDuplicates df).cols.map (fun col => col.vals.getD i Val.missing)
        = (keepFirsts [] df.rowsList)[i]
      have hcols : (dropDuplicates df).cols
          = rebuildCols (keepFirsts [] df.rowsList) 0 df.cols := rfl
      rw [hcols, rebuild_map_getD _ i _ hget df.cols 0]
      have hzero : (fun k => ((keepFirsts [] df.rowsList)[i]).getD (0 + k) Val.missing)
          = (fun k => ((keepFirsts [] df.rowsList)[i]).getD k Val.missing) := by
        funext k
        rw [Nat.zero_add]
      rw [hzero, ← hrlen, range_map_getD]

theorem nRows_mk_map (df : DataFrame) (f : Col → Col)
    (h : ∀ c, ((f c).vals).length = c.vals.length) :
    (DataFrame.mk (df.cols.map f)).nRows = df.nRows := by
  cases df with
  | mk cols =>
    cases cols with
    | nil => rfl
    | cons c cs => simp [DataFrame.nRows, List.map_cons, h]

theorem trimCol_vals_length (c : Col) :
    ((trimCol c).1.vals).length = c.vals.length := by
  rw [trimCol]
  split <;> simp

theorem numericConvertVals_length (vals : List Val) :
    ((numericConvertVals vals).2).length = vals.length := by
  simp only [numericConvertVals]
  split <;> simp

theorem numericConvertCol_vals_length (n : Nat) (c : Col) :
    ((numericConvertCol n c).1.vals).length = c.vals.length := by
  rw [numericConvertCol]
  split
  · simp [numericConvertVals_length]
  · rfl

theorem dateCol_vals_length (c : Col) :
    ((dateCol c).1.vals).length = c.vals.length := by
  rw [dateCol]
  split <;> simp

theorem fillCol_vals_length (c : Col) :
    ((fillCol c).vals).length = c.vals.length := by
  rw [fillCol]
  split
  · cases hm : medianOf c.vals <;> simp [hm]
  · simp

theorem trimStage_nRows (df : DataFrame) : (trimStage df).1.nRows = df.nRows :=
  nRows_mk_map df _ trimCol_vals_length

theorem numericStage_nRows (df : DataFrame) :
    (numericStage df).1.nRows = df.nRows :=
  nRows_mk_map df _ (numericConvertCol_vals_length df.nRows)

theorem dateStage_nRows (df : DataFrame) : (dateStage df).1.nRows = df.nRows :=
  nRows_mk_map df _ dateCol_vals_length

theorem fillStage_nRows (df : DataFrame) : (fillStage df).1.nRows = df.nRows :=
  nRows_mk_map df _ fillCol_vals_length

theorem dropDuplicates_nRows {df : DataFrame} (hc : df.cols ≠ []) :
    (dropDuplicates df).nRows = (keepFirsts [] df.rowsList).length := by
  cases h : df.cols with
  | nil => exact absurd h hc
  | cons c cs => simp [dropDuplicates, h, rebuildCols, DataFrame.nRows]

theorem half_lt_iff (n k : Nat) :
    ((n : Rat) * (1 / 2) < (k : Rat)) ↔ n < 2 * k := by
  rw [mul_one_div, div_lt_iff (by norm_num : (0 : Rat) < 2)]
  rw [show ((k : Rat) * 2) = ((2 * k : Nat) : Rat) by push_cast; ring]
  exact Nat.cast_lt

/-! ### Claim C1 -/

/-- Concrete frame for claim C1: one object column with a whitespace-carrying
cell and no duplicate rows. -/
def dfC1 : DataFrame := DataFrame.mk [Col.mk "a" Dtype.object [Val.str " x"]]

/-- Claim C1 is false as stated: for the duplicate-free frame `dfC1` the
caller's original object is mutated by the in-place stages (its cell `" x"`
ends up trimmed), so it is not unchanged after `auto_fix` returns. -/
theorem C1_private_copy_counterexample :
    ¬(callerDfAfterAutoFix dfC1 = dfC1) := by decide

/-- Claim C1 (amended): `auto_fix` does not operate on a private copy.  The
caller's original frame survives unchanged exactly when stage 1 found
duplicate rows (line 113 then rebinds `self.df` to the fresh frame returned
by `drop_duplicates`) or the cleaning left the data unchanged; for every
duplicate-free input the in-place column assignments of stages 2-5 mutate
the caller's object into the cleaned output. -/
theorem C1_private_copy_amended (df : DataFrame) :
    callerDfAfterAutoFix df = df
      ↔ (0 < duplicatedSum df ∨ (auto_fix df).1 = df) := by
  rw [callerDfAfterAutoFix]
  by_cases h : 0 < duplicatedSum df
  · simp [h]
  · simp [h]

/-! ### Claim C2 -/

/-- Concrete frame for claim C2: an object column holding a
whitespace-carrying value and a missing value. -/
def dfC2 : DataFrame :=
  DataFrame.mk [Col.mk "a" Dtype.object [Val.str " x", Val.missing]]

/-- Claim C2 is false as stated: in the trim stage the missing value of a
whitespace-affected text column is NOT left missing — `astype(str)` renders
NaN as the text "nan", which the strip then keeps, so the missing cell of
`dfC2` comes out as the string "nan". -/
theorem C2_trim_missing_counterexample :
    dfC2.cols.map (fun c => c.vals) = [[Val.str " x", Val.missing]]
  ∧ (trimStage dfC2).1.cols.map (fun c => c.vals)
      = [[Val.str "x", Val.str "nan"]] := by decide

/-- Claim C2 (amended): in the trim stage, a text column none of whose cells
has edge whitespace is left entirely untouched (missing values included);
but in a text column with at least one whitespace-affected value, EVERY
cell is replaced by its stripped `astype(str)` form, so each missing value
becomes the text "nan" instead of staying missing. -/
theorem C2_trim_missing_amended (c d : Col) (hc : c.dtype = Dtype.object)
    (haff : c.vals.any (fun v => hasWS (astypeStr v)) = true)
    (i : Nat) (hi : i < c.vals.length)
    (hm : c.vals.getD i Val.missing = Val.missing)
    (_hd : d.dtype = Dtype.object)
    (hnoaff : d.vals.any (fun v => hasWS (astypeStr v)) = false) :
    (trimCol c).1.vals.getD i Val.missing = Val.str "nan"
  ∧ trimCol d = (d, none) := by
  constructor
  · rw [trimCol, if_pos ⟨hc, haff⟩]
    show (c.vals.map (fun v => Val.str (stripStr (astypeStr v)))).getD i Val.missing = _
    rw [getD_map_of_lt _ _ _ hi _ Val.missing, hm]
    decide
  · rw [trimCol, if_neg]
    rintro ⟨-, h2⟩
    rw [hnoaff] at h2
    exact Bool.false_ne_true h2

/-- Witness instantiating `C2_trim_missing_amended` at concrete columns. -/
theorem C2_trim_missing_witness :
    (Col.mk "a" Dtype.object [Val.str " x", Val.missing]).dtype = Dtype.object
  ∧ (Col.mk "a" Dtype.object [Val.str " x", Val.missing]).vals.any
      (fun v => hasWS (astypeStr v)) = true
  ∧ 1 < (Col.mk "a" Dtype.object [Val.str " x", Val.missing]).vals.length
  ∧ (Col.mk "a" Dtype.object [Val.str " x", Val.missing]).vals.getD 1 Val.missing
      = Val.missing
  ∧ (Col.mk "b" Dtype.object [Val.str "x"]).dtype = Dtype.object
  ∧ (Col.mk "b" Dtype.object [Val.str "x"]).vals.any
      (fun v => hasWS (astypeStr v)) = false
  ∧ ((trimCol (Col.mk "a" Dtype.object [Val.str " x", Val.missing])).1.vals.getD 1
        Val.missing = Val.str "nan"
     ∧ trimCol (Col.mk "b" Dtype.object [Val.str "x"])
        = (Col.mk "b" Dtype.object [Val.str "x"], none)) :=
  ⟨rfl, by decide, by decide, by decide, rfl, by decide,
   C2_trim_missing_amended _ _ rfl (by decide) 1 (by decide) (by decide) rfl
     (by decide)⟩

/-! ### Claim C3 -/

/-- Concrete frame for claim C3: two rows distinct only by whitespace. -/
def dfC3 : DataFrame :=
  DataFrame.mk [Col.mk "a" Dtype.object [Val.str " x", Val.str "x"]]

/-- Claim C3 is false as stated: `dfC3` has no duplicate rows on entry, so
stage 1 removes nothing, but the trim stage then makes its two rows equal,
and `analyze` on the final output of `run` reports one duplicate row, not
zero. -/
theorem C3_output_duplicates_counterexample :
    duplicatedSum dfC3 = 0
  ∧ (analyze (auto_fix dfC3).1).duplicate_rows = 1 := by decide

/-- Claim C3 (amended): zero duplicates holds immediately after the
deduplication stage — `analyze` applied to `drop_duplicates` output always
reports `duplicate_rows = 0` — but later stages (trim, coercions, fill) can
re-introduce duplicate rows, so the property does not hold of the final
output of `run`. -/
theorem C3_dedup_stage_amended (df : DataFrame) :
    (analyze (dropDuplicates df)).duplicate_rows = 0 := by
  show duplicatedSum (dropDuplicates df) = 0
  rw [duplicatedSum, rowsList_dropDuplicates]
  exact dupCountAux_keepFirsts _

/-! ### Claim C4 -/

/-- Concrete frame for claim C4: two whitespace-affected text columns. -/
def dfC4 : DataFrame := DataFrame.mk
  [Col.mk "a" Dtype.object [Val.str " x"], Col.mk "b" Dtype.object [Val.str " y"]]

/-- Claim C4 is false as stated: on `dfC4` the trim stage alone appends TWO
change-log entries in one run (one per affected column, lines 117-120 log
inside the per-column loop), so a stage is not limited to one aggregated
entry. -/
theorem C4_multi_entry_counterexample :
    (dedupStage dfC4).1 = dfC4
  ∧ (trimStage dfC4).2
      = ["Trimmed spaces in column: a", "Trimmed spaces in column: b"]
  ∧ (auto_fix dfC4).2.changes
      = ["Trimmed spaces in column: a", "Trimmed spaces in column: b"] := by decide

/-- Claim C4 (amended): only the deduplication and fill stages append at
most one (aggregated) entry per run; the trim, numeric-coercion and
date-standardization stages append up to one entry PER COLUMN (bounded by
the column count), not one per stage. -/
theorem C4_log_bounds_amended (df : DataFrame) :
    (dedupStage df).2.length ≤ 1
  ∧ (trimStage df).2.length ≤ df.cols.length
  ∧ (numericStage df).2.length ≤ df.cols.length
  ∧ (dateStage df).2.length ≤ df.cols.length
  ∧ (fillStage df).2.length ≤ 1 := by
  refine ⟨?_, ?_, ?_, ?_, ?_⟩
  · rw [dedupStage]
    split <;> simp
  · exact List.length_filterMap_le _ _
  · exact List.length_filterMap_le _ _
  · exact List.length_filterMap_le _ _
  · rw [fillStage]
    split <;> simp

/-! ### Claim C5 -/

/-- Claim C5: the profiler's numeric-as-text rule (line 98) and the
pipeline's conversion commit test (line 126) evaluate the same strict
boundary `count > rows * 0.5` over their respective row counts, i.e.
`rows < 2 * count` over naturals; at `count` exactly half of `rows`
neither reports nor converts, strictly above half both the report (with
the numeric count) and the conversion fire, and for a rectangular column
`count ≤ rows`, so `rows = 0` yields no report and no conversion. -/
theorem C5_threshold_boundary (n : Nat) (c : Col)
    (hobj : c.dtype = Dtype.object) (hlen : c.vals.length = n) :
    analyzeNumericCond n c.vals = fixNumericCond n c.vals
  ∧ (analyzeNumericCond n c.vals = true
       ↔ ((n : Rat) * (1 / 2) < (numericCount c.vals : Rat)))
  ∧ rule6Issues n c = (if n < 2 * numericCount c.vals then
      ["Numeric values stored as text (" ++ natToStr (numericCount c.vals)
        ++ " detected)"]
    else [])
  ∧ numericConvertCol n c = (if n < 2 * numericCount c.vals then
      ({ c with dtype := (numericConvertVals c.vals).1
                vals := (numericConvertVals c.vals).2 },
       some ("Converted " ++ c.name ++ " to numeric"))
    else (c, none))
  ∧ numericCount c.vals ≤ n := by
  have hcond : (analyzeNumericCond n c.vals = true) ↔ n < 2 * numericCount c.vals := by
    rw [analyzeNumericCond, decide_eq_true_eq]
  refine ⟨rfl, by rw [hcond, half_lt_iff], ?_, ?_, ?_⟩
  · rw [rule6Issues]
    by_cases h : n < 2 * numericCount c.vals
    · rw [if_pos ⟨hobj, hcond.mpr h⟩, if_pos h]
    · rw [if_neg, if_neg h]
      rintro ⟨-, h2⟩
      exact h (hcond.mp h2)
  · rw [numericConvertCol]
    by_cases h : n < 2 * numericCount c.vals
    · rw [if_pos ⟨hobj, hcond.mpr h⟩, if_pos h]
    · rw [if_neg, if_neg h]
      rintro ⟨-, h2⟩
      exact h (hcond.mp h2)
  · rw [← hlen, numericCount]
    exact List.countP_le_length _

/-- Concrete column for the C5 witness: 3 of 4 values numeric-parseable. -/
def colC5 : Col :=
  Col.mk "num" Dtype.object [Val.str "1", Val.str "2", Val.str "3", Val.str "y"]

/-- Witness instantiating `C5_threshold_boundary` at a 4-row column. -/
theorem C5_threshold_witness :
    colC5.dtype = Dtype.object
  ∧ colC5.vals.length = 4
  ∧ (analyzeNumericCond 4 colC5.vals = fixNumericCond 4 colC5.vals
     ∧ (analyzeNumericCond 4 colC5.vals = true
          ↔ ((4 : Rat) * (1 / 2) < (numericCount colC5.vals : Rat)))
     ∧ rule6Issues 4 colC5 = (if 4 < 2 * numericCount colC5.vals then
         ["Numeric values stored as text (" ++ natToStr (numericCount colC5.vals)
           ++ " detected)"]
       else [])
     ∧ numericConvertCol 4 colC5 = (if 4 < 2 * numericCount colC5.vals then
         ({ colC5 with dtype := (numericConvertVals colC5.vals).1
                       vals := (numericConvertVals colC5.vals).2 },
          some ("Converted " ++ colC5.name ++ " to numeric"))
       else (colC5, none))
     ∧ numericCount colC5.vals ≤ 4) :=
  ⟨rfl, rfl, C5_threshold_boundary 4 colC5 rfl rfl⟩

/-! ### Claim C6 -/

/-- Claim C6: if a numeric (int64/float64) column reaches the fill stage
with zero non-missing values, `median()` is NaN and `fillna(NaN)` is a
no-op (no exception in the embedding's total semantics), so the column
leaves the stage unchanged — every missing cell still missing, no median or
fallback constant fabricated — and the stage still processes the whole
frame. -/
theorem C6_all_missing_median (df : DataFrame) (c : Col) (hmem : c ∈ df.cols)
    (hnum : c.dtype = Dtype.int64 ∨ c.dtype = Dtype.float64)
    (hall : ∀ v ∈ c.vals, v = Val.missing) :
    fillCol c = c
  ∧ c ∈ (fillStage df).1.cols
  ∧ ((fillStage df).1.cols).length = df.cols.length := by
  have hfm : c.vals.filterMap ratOf = [] := by
    rw [List.filterMap_eq_nil]
    intro v hv
    rw [hall v hv]
    rfl
  have hmed : medianOf c.vals = none := by
    rw [medianOf, hfm]
    rfl
  have h1 : fillCol c = c := by
    rw [fillCol, if_pos hnum, hmed]
  refine ⟨h1, ?_, ?_⟩
  · have h2 := List.mem_map_of_mem fillCol hmem
    rwa [h1] at h2
  · simp [fillStage]

/-- Concrete frame for the C6 witness: one all-missing float64 column. -/
def dfC6 : DataFrame :=
  DataFrame.mk [Col.mk "v" Dtype.float64 [Val.missing, Val.missing]]

/-- Concrete column for the C6 witness. -/
def colC6 : Col := Col.mk "v" Dtype.float64 [Val.missing, Val.missing]

/-- Witness instantiating `C6_all_missing_median` at a concrete frame. -/
theorem C6_all_missing_witness :
    colC6 ∈ dfC6.cols
  ∧ (colC6.dtype = Dtype.int64 ∨ colC6.dtype = Dtype.float64)
  ∧ (∀ v ∈ colC6.vals, v = Val.missing)
  ∧ (fillCol colC6 = colC6
     ∧ colC6 ∈ (fillStage dfC6).1.cols
     ∧ ((fillStage dfC6).1.cols).length = dfC6.cols.length) :=
  ⟨by decide, Or.inr rfl, by decide,
   C6_all_missing_median dfC6 colC6 (by decide) (Or.inr rfl) (by decide)⟩

/-! ### Claim C7 -/

/-- Concrete frame for claim C7: an object column whose numeric conversion
does not commit (only 1 of 3 values parses). -/
def dfC7 : DataFrame :=
  DataFrame.mk [Col.mk "a" Dtype.object [Val.str "x", Val.str "y", Val.str "1"]]

/-- Claim C7 is false as stated: on `dfC7`, the cell "x" fails numeric
coercion, but because the 50% threshold is not met the conversion is not
committed and the unparseable value stays the text "x" through the whole
run — it does NOT become missing (the run does still complete). -/
theorem C7_uncommitted_counterexample :
    toNumericCell (Val.str "x") = none
  ∧ (numericStage dfC7).1 = dfC7
  ∧ (auto_fix dfC7).1.cols.map (fun c => c.vals)
      = [[Val.str "x", Val.str "y", Val.str "1"]]
  ∧ (auto_fix dfC7).2.rows_after = 3 := by decide

/-- Claim C7 (amended): a per-cell parse failure is never fatal — both
stages are total and process every remaining cell of the column (lengths
preserved).  In the numeric stage an unparseable value becomes missing
only when the column's conversion commits (threshold met); in the date
stage, which always commits for a date/time-named column, an unparseable
value becomes missing unconditionally. -/
theorem C7_coercion_failure_amended (n : Nat) (c d : Col)
    (hobj : c.dtype = Dtype.object) (hcommit : fixNumericCond n c.vals = true)
    (i : Nat) (hi : i < c.vals.length)
    (hfail : toNumericCell (c.vals.getD i Val.missing) = none)
    (hdate : isDateNamed d.name = true)
    (j : Nat) (hj : j < d.vals.length)
    (hdfail : toDatetimeCell (d.vals.getD j Val.missing) = none) :
    (numericConvertCol n c).1.vals.getD i Val.missing = Val.missing
  ∧ ((numericConvertCol n c).1.vals).length = c.vals.length
  ∧ (dateCol d).1.vals.getD j Val.missing = Val.missing
  ∧ ((dateCol d).1.vals).length = d.vals.length := by
  refine ⟨?_, numericConvertCol_vals_length n c, ?_, dateCol_vals_length d⟩
  · rw [numericConvertCol, if_pos ⟨hobj, hcommit⟩]
    show (numericConvertVals c.vals).2.getD i Val.missing = Val.missing
    have hplen : i < (c.vals.map toNumericCell).length := by simpa using hi
    have hpi : (c.vals.map toNumericCell).getD i none = none := by
      rw [getD_map_of_lt toNumericCell c.vals i hi none Val.missing, hfail]
    have hallf : (c.vals.map toNumericCell).all
        (fun o => match o with | some (Val.int _) => true | _ => false) = false := by
      rw [List.all_eq_false]
      refine ⟨(c.vals.map toNumericCell).getD i none, ?_, ?_⟩
      · rw [List.getD_eq_getElem _ _ hplen]
        exact List.getElem_mem hplen
      · rw [hpi]
        simp
    simp only [numericConvertVals]
    rw [if_neg (by simp [hallf])]
    show ((c.vals.map toNumericCell).map (fun o =>
        match o with
        | some (Val.int n2) => Val.float (n2 : Rat)
        | some v => v
        | none => Val.missing)).getD i Val.missing = Val.missing
    rw [getD_map_of_lt _ _ _ hplen _ none, hpi]
  · rw [dateCol, if_pos hdate]
    show (d.vals.map (fun v => (toDatetimeCell v).getD Val.missing)).getD j
        Val.missing = Val.missing
    rw [getD_map_of_lt _ _ _ hj _ Val.missing, hdfail]
    rfl

/-- Concrete column for the C7 witness: committed numeric conversion with
one failing cell. -/
def colC7n : Col := Col.mk "a" Dtype.object [Val.str "1", Val.str "2", Val.str "zz"]

/-- Concrete column for the C7 witness: date-named column with one
unparseable cell. -/
def colC7d : Col :=
  Col.mk "stamp_date" Dtype.object [Val.str "2024-01-01", Val.str "bad"]

/-- Witness instantiating `C7_coercion_failure_amended` at concrete
columns. -/
theorem C7_coercion_failure_witness :
    colC7n.dtype = Dtype.object
  ∧ fixNumericCond 3 colC7n.vals = true
  ∧ 2 < colC7n.vals.length
  ∧ toNumericCell (colC7n.vals.getD 2 Val.missing) = none
  ∧ isDateNamed colC7d.name = true
  ∧ 1 < colC7d.vals.length
  ∧ toDatetimeCell (colC7d.vals.getD 1 Val.missing) = none
  ∧ ((numericConvertCol 3 colC7n).1.vals.getD 2 Val.missing = Val.missing
     ∧ ((numericConvertCol 3 colC7n).1.vals).length = colC7n.vals.length
     ∧ (dateCol colC7d).1.vals.getD 1 Val.missing = Val.missing
     ∧ ((dateCol colC7d).1.vals).length = colC7d.vals.length) :=
  ⟨rfl, by decide, by decide, by decide, by decide, by decide, by decide,
   C7_coercion_failure_amended 3 colC7n colC7d rfl (by decide) 2 (by decide)
     (by decide) (by decide) 1 (by decide) (by decide)⟩

/-! ### Claim C8 -/

/-- Claim C8: `rows_before` is the input row count, `rows_after` never
exceeds it, equality holds exactly when the input had no duplicate rows,
and since every stage after deduplication preserves the row count,
`rows_after` equals the post-deduplication row count. -/
theorem C8_row_count (df : DataFrame) :
    (auto_fix df).2.rows_before = df.nRows
  ∧ (auto_fix df).2.rows_after = (dedupStage df).1.nRows
  ∧ (auto_fix df).2.rows_after ≤ (auto_fix df).2.rows_before
  ∧ ((auto_fix df).2.rows_after = (auto_fix df).2.rows_before
       ↔ duplicatedSum df = 0) := by
  have hb : (auto_fix df).2.rows_before = df.nRows := rfl
  have ha : (auto_fix df).2.rows_after = (dedupStage df).1.nRows := by
    show (fillStage (dateStage (numericStage (trimStage
        (dedupStage df).1).1).1).1).1.nRows = _
    rw [fillStage_nRows, dateStage_nRows, numericStage_nRows, trimStage_nRows]
  by_cases hd : 0 < duplicatedSum df
  · have h1 : (dedupStage df).1 = dropDuplicates df := by
      rw [dedupStage, if_pos hd]
    have hdle : duplicatedSum df ≤ df.nRows := by
      rw [← rowsList_length df]
      exact dupCountAux_le_length _ _
    have hcne : df.cols ≠ [] := by
      intro hnil
      have h0 : df.nRows = 0 := by simp [DataFrame.nRows, hnil]
      omega
    have hkl : (keepFirsts [] df.rowsList).length + duplicatedSum df = df.nRows := by
      rw [duplicatedSum, ← rowsList_length df]
      exact keepFirsts_length_add _ _
    have hnn : (dedupStage df).1.nRows = (keepFirsts [] df.rowsList).length := by
      rw [h1]
      exact dropDuplicates_nRows hcne
    refine ⟨hb, ha, ?_, ?_⟩
    · rw [ha, hb, hnn]
      omega
    · rw [ha, hb, hnn]
      omega
  · have h1 : (dedupStage df).1 = df := by
      rw [dedupStage, if_neg hd]
    refine ⟨hb, ha, ?_, ?_⟩
    · rw [ha, hb, h1]
    · rw [ha, hb, h1]
      omega

/-! ### Claim C9 -/

/-- The frame of the spec's stage-ordering scenario: rows
`(" 1 ","x")`, `("1","x")`, `("2", missing)`. -/
def dfC9 : DataFrame := DataFrame.mk
  [ Col.mk "a" Dtype.object [Val.str " 1 ", Val.str "1", Val.str "2"]
  , Col.mk "b" Dtype.object [Val.str "x", Val.str "x", Val.missing] ]

/-- Claim C9: on `dfC9` deduplication sees the raw (untrimmed) values, so
no row is removed (`rows_after = 3`, no dedup log entry), and the change
log carries the trim entry for column "a" (the later numeric-conversion
and fill entries are the only other entries). -/
theorem C9_stage_order_scenario :
    duplicatedSum dfC9 = 0
  ∧ (dedupStage dfC9).2 = []
  ∧ (auto_fix dfC9).2.rows_after = 3
  ∧ (auto_fix dfC9).2.changes
      = ["Trimmed spaces in column: a", "Converted a to numeric",
         "Filled 1 empty cells"] := by decide

/-! ### Claim C10 -/

/-- Claim C10: in the trim stage, an object column with at least one
whitespace-affected `astype(str)` form has EVERY cell replaced by the
stripped string form (so numeric or timestamp cells in such a column become
text), and is logged; an object column with no whitespace-affected value is
returned untouched with no log entry; the stage applies this per-column
transformation across the whole frame. -/
theorem C10_trim_stringify (c d : Col) (df : DataFrame)
    (hc : c.dtype = Dtype.object)
    (haff : c.vals.any (fun v => hasWS (astypeStr v)) = true)
    (_hd : d.dtype = Dtype.object)
    (hnoaff : d.vals.any (fun v => hasWS (astypeStr v)) = false) :
    (trimCol c).1.vals = c.vals.map (fun v => Val.str (stripStr (astypeStr v)))
  ∧ (trimCol c).2 = some ("Trimmed spaces in column: " ++ c.name)
  ∧ trimCol d = (d, none)
  ∧ (trimStage df).1.cols = df.cols.map (fun c2 => (trimCol c2).1) := by
  refine ⟨?_, ?_, ?_, rfl⟩
  · rw [trimCol, if_pos ⟨hc, haff⟩]
  · rw [trimCol, if_pos ⟨hc, haff⟩]
  · rw [trimCol, if_neg]
    rintro ⟨-, h2⟩
    rw [hnoaff] at h2
    exact Bool.false_ne_true h2

/-- Concrete column for the C10 witness: whitespace text next to a number. -/
def colC10 : Col := Col.mk "a" Dtype.object [Val.str " x", Val.int 5]

/-- Concrete frame for the C10 witness. -/
def dfC10 : DataFrame := DataFrame.mk [colC10]

/-- Witness instantiating `C10_trim_stringify` at concrete columns; the
affected column's integer cell 5 becomes the text "5". -/
theorem C10_trim_stringify_witness :
    colC10.dtype = Dtype.object
  ∧ colC10.vals.any (fun v => hasWS (astypeStr v)) = true
  ∧ (Col.mk "b" Dtype.object [Val.str "x"]).dtype = Dtype.object
  ∧ (Col.mk "b" Dtype.object [Val.str "x"]).vals.any
      (fun v => hasWS (astypeStr v)) = false
  ∧ ((trimCol colC10).1.vals
        = colC10.vals.map (fun v => Val.str (stripStr (astypeStr v)))
     ∧ (trimCol colC10).2 = some ("Trimmed spaces in column: " ++ colC10.name)
     ∧ trimCol (Col.mk "b" Dtype.object [Val.str "x"])
        = (Col.mk "b" Dtype.object [Val.str "x"], none)
     ∧ (trimStage dfC10).1.cols = dfC10.cols.map (fun c2 => (trimCol c2).1)) :=
  ⟨rfl, by decide, rfl, by decide,
   C10_trim_stringify colC10 (Col.mk "b" Dtype.object [Val.str "x"]) dfC10 rfl
     (by decide) rfl (by decide)⟩

end DataCleaner
